import Mathlib

/-!
Verification development for the cygnss-wetlands repository: the CYGNSS L1
reader/filter/footprint pipeline.  The quality-flag and attribute tables are
embedded verbatim from `cygnss_wetlands/cygnss/config.yaml`.  The reader,
footprint estimator and export writer live in `cygnss_wetlands/cygnss/reader.py`,
which is not part of the available sources; those operations are modelled from
the specification, as marked on each definition.
-/

/-- One quality-flag table entry: flag name and whether a set bit screens the
record out (from the config comment: True = filter out, False = ok to use). -/
structure FlagEntry where
  name : String
  screen_out : Bool
deriving Repr, DecidableEq

/-- Default flag entry, used only for out-of-range `getD` lookups. -/
instance : Inhabited FlagEntry := ⟨⟨"", false⟩⟩

/-- The `L1.quality_flags` section `1` of `cygnss_wetlands/cygnss/config.yaml`,
in declaration order (bit 0 first). -/
def quality_flags_1 : List FlagEntry := [
  ⟨"poor_overall_quality", false⟩,
  ⟨"s_band_powered_up", true⟩,
  ⟨"small_sc_attitude_err", false⟩,
  ⟨"large_sc_attitude_err", true⟩,
  ⟨"black_body_ddm", true⟩,
  ⟨"ddmi_reconfigured", true⟩,
  ⟨"spacewire_crc_invalid", false⟩,
  ⟨"ddm_is_test_pattern", true⟩,
  ⟨"channel_idle", true⟩,
  ⟨"low_confidence_ddm_noise_floor", false⟩,
  ⟨"sp_over_land", false⟩,
  ⟨"sp_very_near_land", false⟩,
  ⟨"sp_near_land", false⟩,
  ⟨"large_step_noise_floor", false⟩,
  ⟨"large_step_lna_temp", false⟩,
  ⟨"direct_signal_in_ddm", true⟩,
  ⟨"low_confidence_gps_eirp_estimate", true⟩,
  ⟨"rfi_detected", true⟩,
  ⟨"brcs_ddm_sp_bin_delay_error", false⟩,
  ⟨"brcs_ddm_sp_bin_dopp_error", false⟩,
  ⟨"neg_brcs_value_used_for_nbrcs", false⟩,
  ⟨"gps_pvt_sp3_error", false⟩,
  ⟨"sp_non_existent_error", true⟩,
  ⟨"brcs_lut_range_error", false⟩,
  ⟨"ant_data_lut_range_error", false⟩,
  ⟨"bb_framing_error", true⟩,
  ⟨"fsw_comp_shift_error", false⟩,
  ⟨"low_quality_gps_ant_knowledge", false⟩,
  ⟨"sc_altitude_out_of_nominal_range", false⟩,
  ⟨"anomalous_sampling_period", false⟩,
  ⟨"invalid_roll_state", true⟩]

/-- The `L1.quality_flags` section `2` of `cygnss_wetlands/cygnss/config.yaml`,
in declaration order (bit 0 first). -/
def quality_flags_2 : List FlagEntry := [
  ⟨"incorrect_ddmi_antenna_selection", true⟩,
  ⟨"high_signal_noise", true⟩,
  ⟨"noise_floor_cal_error", false⟩,
  ⟨"sp_in_sidelobe", false⟩,
  ⟨"negligible_nst_outage", false⟩,
  ⟨"minor_nst_outage", false⟩,
  ⟨"fatal_nst_outage", false⟩,
  ⟨"low_zenith_ant_gain", false⟩,
  ⟨"poor_bb_quality", false⟩,
  ⟨"poor_quality_bin_ratio", false⟩]

/-- The quality-flag sections of the config, keyed by their numeric section
keys `1` and `2`, in the order they appear in `config.yaml`. -/
def configQualityFlagSections : List (Nat × List FlagEntry) :=
  [(1, quality_flags_1), (2, quality_flags_2)]

/-- Modelled from the spec: the loader of the quality-flag configuration is in
`cygnss_wetlands/cygnss/reader.py`, absent from the sources.  Per the spec,
per-byte decoding walks the ordered bit-to-name mapping: a record passes the
quality screen for one flag byte when no bit whose entry has
`screen_out = True` is set in the packed value `v`. -/
def passesQualityByte (table : List FlagEntry) (v : Nat) : Bool :=
  (List.range table.length).all
    (fun i => !((table.getD i default).screen_out && v.testBit i))

/-- Modelled from the spec: a record carries one packed unsigned integer per
declared flag byte; it passes quality overall when every flag byte passes
(record fails if ANY screen-out flag bit is set). -/
def passesQuality (tables : List (List FlagEntry)) (vs : List Nat) : Bool :=
  (List.range tables.length).all
    (fun b => passesQualityByte (tables.getD b []) (vs.getD b 0))

/-- The shipped quality-flag tables, section keys in numeric order. -/
def defaultQualityFlagTables : List (List FlagEntry) :=
  [quality_flags_1, quality_flags_2]

/-- Bit positions of the three land-proximity flags in flag byte 1
(`sp_over_land`, `sp_very_near_land`, `sp_near_land`). -/
def landProximityBits : List Nat := [10, 11, 12]

/-- C1: a record passes quality iff no bit whose table entry has
`screen_out = True` is set in the corresponding packed flag value; every bit
pattern (all-clear, single-flag-set, all-flags-set) is covered by the
universal quantification. -/
theorem passes_quality_iff (tables : List (List FlagEntry)) (vs : List Nat)
    (h : vs.length = tables.length) :
    passesQuality tables vs = true ↔
      ∀ b < tables.length, ∀ i < (tables.getD b []).length,
        ((tables.getD b []).getD i default).screen_out = true →
          (vs.getD b 0).testBit i = false := by
  unfold passesQuality passesQualityByte
  simp only [List.all_eq_true, List.mem_range]
  constructor
  · intro hall b hb i hi hscreen
    have := hall b hb i hi
    rw [hscreen] at this
    simpa using this
  · intro hall b hb i hi
    by_cases hs : ((tables.getD b []).getD i default).screen_out = true
    · have hv := hall b hb i hi hs
      rw [hs, hv]
      rfl
    · rw [Bool.not_eq_true] at hs
      rw [hs]
      rfl

/-- Witness for C1 at the shipped tables with one packed value per byte. -/
theorem passes_quality_iff_witness :
    ([4, 0] : List Nat).length = defaultQualityFlagTables.length ∧
      (passesQuality defaultQualityFlagTables [4, 0] = true ↔
        ∀ b < defaultQualityFlagTables.length,
          ∀ i < (defaultQualityFlagTables.getD b []).length,
            ((defaultQualityFlagTables.getD b []).getD i default).screen_out = true →
              (([4, 0] : List Nat).getD b 0).testBit i = false) :=
  ⟨by decide, passes_quality_iff defaultQualityFlagTables [4, 0] (by decide)⟩

/-- C7: bits at positions with no named table entry never affect the per-byte
pass/fail decision: or-ing any mask of unnamed bits into the packed value
leaves the decision unchanged. -/
theorem unnamed_bits_ignored (table : List FlagEntry) (v mask : Nat)
    (h : ∀ i < table.length, mask.testBit i = false) :
    passesQualityByte table (v ||| mask) = passesQualityByte table v := by
  unfold passesQualityByte
  rw [Bool.eq_iff_iff]
  simp only [List.all_eq_true, List.mem_range]
  constructor
  · intro hall i hi
    have := hall i hi
    rw [Nat.testBit_lor, h i hi] at this
    simpa using this
  · intro hall i hi
    have := hall i hi
    rw [Nat.testBit_lor, h i hi]
    simpa using this

/-- Witness for C7: setting bits 31 and 40 (beyond the 31 named bits of flag
byte 1) in an otherwise-passing value leaves it passing. -/
theorem unnamed_bits_ignored_witness :
    (∀ i < quality_flags_1.length, (2 ^ 31 + 2 ^ 40 : Nat).testBit i = false) ∧
      passesQualityByte quality_flags_1 (0 ||| (2 ^ 31 + 2 ^ 40)) =
        passesQualityByte quality_flags_1 0 :=
  ⟨by decide, unnamed_bits_ignored quality_flags_1 0 (2 ^ 31 + 2 ^ 40) (by decide)⟩

/-- C10: in the shipped configuration the three land-proximity flags are not
screened out, and any record whose named set bits are land-proximity bits only
(byte 2 having no named bit set) passes the quality screen. -/
theorem land_proximity_not_screened (v w : Nat)
    (h1 : ∀ i < quality_flags_1.length, v.testBit i = true → i ∈ landProximityBits)
    (h2 : ∀ i < quality_flags_2.length, w.testBit i = false) :
    ((quality_flags_1.getD 10 default).name = "sp_over_land" ∧
      (quality_flags_1.getD 10 default).screen_out = false) ∧
    ((quality_flags_1.getD 11 default).name = "sp_very_near_land" ∧
      (quality_flags_1.getD 11 default).screen_out = false) ∧
    ((quality_flags_1.getD 12 default).name = "sp_near_land" ∧
      (quality_flags_1.getD 12 default).screen_out = false) ∧
    passesQuality defaultQualityFlagTables [v, w] = true := by
  refine ⟨⟨by decide, by decide⟩, ⟨by decide, by decide⟩, ⟨by decide, by decide⟩, ?_⟩
  rw [passes_quality_iff defaultQualityFlagTables [v, w] rfl]
  intro b hb i hi hscreen
  have hb2 : b < 2 := by simpa [defaultQualityFlagTables] using hb
  interval_cases b
  · by_cases hv : v.testBit i = true
    · have hmem : i = 10 ∨ i = 11 ∨ i = 12 := by
        simpa [landProximityBits] using h1 i hi hv
      exfalso
      rcases hmem with h10 | h11 | h12
      · subst h10; revert hscreen; decide
      · subst h11; revert hscreen; decide
      · subst h12; revert hscreen; decide
    · simpa using hv
  · exact h2 i (by simpa [defaultQualityFlagTables] using hi)

/-- Witness for C10: the packed value with exactly bits 10, 11, 12 set in byte
1 and an unnamed bit set in byte 2 passes the quality screen. -/
theorem land_proximity_not_screened_witness :
    (∀ i < quality_flags_1.length,
        (2 ^ 10 + 2 ^ 11 + 2 ^ 12 : Nat).testBit i = true → i ∈ landProximityBits) ∧
    (∀ i < quality_flags_2.length, (2 ^ 20 : Nat).testBit i = false) ∧
    passesQuality defaultQualityFlagTables [2 ^ 10 + 2 ^ 11 + 2 ^ 12, 2 ^ 20] = true :=
  ⟨by decide, by decide,
    (land_proximity_not_screened (2 ^ 10 + 2 ^ 11 + 2 ^ 12) (2 ^ 20)
      (by decide) (by decide)).2.2.2⟩

/-- The `L1.per_sample_attributes` list of `config.yaml`, in order. -/
def per_sample_attributes : List String :=
  ["ddm_timestamp_utc", "sc_lat", "sc_lon"]

/-- The `L1.per_ddm_attributes` list of `config.yaml`, in order. -/
def per_ddm_attributes : List String :=
  ["prn_code", "sv_num", "track_id", "sp_lat", "sp_lon", "sp_inc_angle",
   "sp_rx_gain", "gps_tx_power_db_w", "gps_ant_gain_db_i", "ddm_snr",
   "rx_to_sp_range", "tx_to_sp_range", "brcs_ddm_sp_bin_dopp_col",
   "brcs_ddm_sp_bin_delay_row"]

/-- The `L1.per_bin_attributes` list of `config.yaml`, in order. -/
def per_bin_attributes : List String := ["brcs"]

/-- The full attribute catalog: the three ordered lists concatenated. -/
def attributeCatalog : List String :=
  per_sample_attributes ++ per_ddm_attributes ++ per_bin_attributes

/-- One tabular record per (sample, channel) pair.  Coordinates are embedded
as rationals; the land-proximity indicator as a boolean; the packed quality
flags as one natural number per flag byte; the remaining non-geometry
attributes as a name-value association list. -/
structure DdmRecord where
  sampleIdx : Nat
  channelIdx : Nat
  sp_lat : ℚ
  sp_lon : ℚ
  nearLand : Bool
  qualityFlags : List Nat
  attributes : List (String × ℚ)
deriving Repr, DecidableEq

instance : Inhabited DdmRecord := ⟨⟨0, 0, 0, 0, false, [], []⟩⟩

/-- Bounding box in degrees: (xmin, ymin, xmax, ymax); x is longitude, y is
latitude, as in the notebook's `PACAYA_SAMIRIA_BBOX = (-77, -7, -73, -3)`. -/
structure BBox where
  xmin : ℚ
  ymin : ℚ
  xmax : ℚ
  ymax : ℚ
deriving Repr, DecidableEq

/-- Reader configuration: optional bounding box, near-land switch, and the
quality-flag tables (one per declared flag byte). -/
structure ReaderConfig where
  bbox : Option BBox
  near_land : Bool
  tables : List (List FlagEntry)

/-- An input NetCDF L1 file, abstracted: its identifier, the variable names
it exposes, its dimensions, and the candidate record data at each
(sample, channel) index pair. -/
structure InputFile where
  fileId : String
  varNames : List String
  numSamples : Nat
  numChannels : Nat
  recordAt : Nat → Nat → DdmRecord

/-- Error reported when catalogued attributes are absent from a file. -/
structure MissingVariableError where
  fileId : String
  missingNames : List String
deriving Repr, DecidableEq

/-- Modelled from the spec: the spatial filter of `CygnssL1Reader` (reader.py
is absent from the sources).  A record is kept only if its specular point
(sp_lat, sp_lon) falls within the bounding box with inclusive bounds, when a
bounding box is supplied. -/
def spatialKeep (bbox : Option BBox) (r : DdmRecord) : Bool :=
  match bbox with
  | none => true
  | some b =>
      decide (b.xmin ≤ r.sp_lon) && decide (r.sp_lon ≤ b.xmax) &&
      decide (b.ymin ≤ r.sp_lat) && decide (r.sp_lat ≤ b.ymax)

/-- Modelled from the spec: the near-land filter keeps a record only if the
land-proximity indicator signals near land (or land), when enabled. -/
def nearLandKeep (near_land : Bool) (r : DdmRecord) : Bool :=
  !near_land || r.nearLand

/-- Modelled from the spec: a candidate record survives when it passes the
spatial filter, the near-land filter, and the quality-flag screen. -/
def keepRecord (cfg : ReaderConfig) (r : DdmRecord) : Bool :=
  spatialKeep cfg.bbox r && nearLandKeep cfg.near_land r &&
    passesQuality cfg.tables r.qualityFlags

/-- Modelled from the spec: for every sample index and every DDM channel
index, one candidate record is assembled, in the file's (sample, channel)
traversal order. -/
def candidates (f : InputFile) : List DdmRecord :=
  (List.range f.numSamples ×ˢ List.range f.numChannels).map
    (fun p => { f.recordAt p.1 p.2 with sampleIdx := p.1, channelIdx := p.2 })

/-- Modelled from the spec: the retained record set is the candidate
traversal filtered by `keepRecord`. -/
def readRecords (cfg : ReaderConfig) (f : InputFile) : List DdmRecord :=
  (candidates f).filter (keepRecord cfg)

/-- The catalogued attribute names absent from a file. -/
def missingVariables (f : InputFile) : List String :=
  attributeCatalog.filter (fun n => !(f.varNames.contains n))

/-- Modelled from the spec: `CygnssL1Reader.read_file` validates that the
file exposes all catalogued attribute names and fails with a
`MissingVariableError` listing the absent names; otherwise it returns the
filtered record set. -/
def read_file (cfg : ReaderConfig) (f : InputFile) :
    Except MissingVariableError (List DdmRecord) :=
  if missingVariables f = [] then Except.ok (readRecords cfg f)
  else Except.error ⟨f.fileId, missingVariables f⟩

/-- Modelled from the spec: batch processing reads each file sequentially and
independently, pairing each file identifier with its per-file result. -/
def processBatch (cfg : ReaderConfig) (files : List InputFile) :
    List (String × Except MissingVariableError (List DdmRecord)) :=
  files.map (fun f => (f.fileId, read_file cfg f))

/-- C2: a file missing at least one catalogued attribute fails with a
missing-variable error carrying the file identifier and exactly the absent
catalogued names, returns no partial record set, and in a batch the failure
leaves the other files' results untouched. -/
theorem missing_variable_error_reported (cfg : ReaderConfig) (f : InputFile)
    (pre post : List InputFile)
    (h : ∃ a ∈ attributeCatalog, f.varNames.contains a = false) :
    (read_file cfg f = Except.error ⟨f.fileId, missingVariables f⟩ ∧
      missingVariables f ≠ [] ∧
      ∀ a, a ∈ missingVariables f ↔
        a ∈ attributeCatalog ∧ f.varNames.contains a = false) ∧
    processBatch cfg (pre ++ f :: post) =
      processBatch cfg pre ++ (f.fileId, read_file cfg f) :: processBatch cfg post := by
  obtain ⟨a, ha, hnot⟩ := h
  have hmem : a ∈ missingVariables f := by
    unfold missingVariables
    rw [List.mem_filter]
    exact ⟨ha, by rw [hnot]; rfl⟩
  have hne : missingVariables f ≠ [] := List.ne_nil_of_mem hmem
  refine ⟨⟨?_, hne, ?_⟩, ?_⟩
  · unfold read_file
    rw [if_neg hne]
  · intro x
    unfold missingVariables
    rw [List.mem_filter]
    simp
  · unfold processBatch
    rw [List.map_append, List.map_cons]

/-- Witness for C2: a file exposing no variables at all fails with all
catalogued names reported as missing. -/
theorem missing_variable_error_reported_witness :
    (∃ a ∈ attributeCatalog,
        (InputFile.mk "cyg01-empty.nc" [] 0 0 (fun _ _ => default)).varNames.contains a
          = false) ∧
    ((read_file ⟨none, false, defaultQualityFlagTables⟩
        (InputFile.mk "cyg01-empty.nc" [] 0 0 (fun _ _ => default)) =
      Except.error ⟨"cyg01-empty.nc",
        missingVariables (InputFile.mk "cyg01-empty.nc" [] 0 0 (fun _ _ => default))⟩ ∧
      missingVariables (InputFile.mk "cyg01-empty.nc" [] 0 0 (fun _ _ => default)) ≠ [] ∧
      ∀ a, a ∈ missingVariables (InputFile.mk "cyg01-empty.nc" [] 0 0 (fun _ _ => default)) ↔
        a ∈ attributeCatalog ∧
          (InputFile.mk "cyg01-empty.nc" [] 0 0 (fun _ _ => default)).varNames.contains a
            = false) ∧
    processBatch ⟨none, false, defaultQualityFlagTables⟩
        ([] ++ (InputFile.mk "cyg01-empty.nc" [] 0 0 (fun _ _ => default)) :: []) =
      processBatch ⟨none, false, defaultQualityFlagTables⟩ [] ++
        ((InputFile.mk "cyg01-empty.nc" [] 0 0 (fun _ _ => default)).fileId,
          read_file ⟨none, false, defaultQualityFlagTables⟩
            (InputFile.mk "cyg01-empty.nc" [] 0 0 (fun _ _ => default))) ::
          processBatch ⟨none, false, defaultQualityFlagTables⟩ []) :=
  ⟨⟨"ddm_timestamp_utc", by decide, rfl⟩,
    missing_variable_error_reported ⟨none, false, defaultQualityFlagTables⟩
      (InputFile.mk "cyg01-empty.nc" [] 0 0 (fun _ _ => default)) [] []
      ⟨"ddm_timestamp_utc", by decide, rfl⟩⟩

/-- C3: the spatial filter retains a record exactly when its specular point
lies within the bounding box with inclusive bounds, and points exactly on
the box corners (coordinates equal to xmin/ymin or xmax/ymax) are retained. -/
theorem bbox_filter_inclusive (b : BBox) (r : DdmRecord)
    (hx : b.xmin ≤ b.xmax) (hy : b.ymin ≤ b.ymax) :
    (spatialKeep (some b) r = true ↔
      (b.xmin ≤ r.sp_lon ∧ r.sp_lon ≤ b.xmax ∧ b.ymin ≤ r.sp_lat ∧ r.sp_lat ≤ b.ymax)) ∧
    spatialKeep (some b) { r with sp_lon := b.xmin, sp_lat := b.ymin } = true ∧
    spatialKeep (some b) { r with sp_lon := b.xmax, sp_lat := b.ymax } = true := by
  unfold spatialKeep
  simp only [Bool.and_eq_true, decide_eq_true_eq]
  refine ⟨by tauto, ?_, ?_⟩
  · exact ⟨⟨⟨le_refl _, hx⟩, le_refl _⟩, hy⟩
  · exact ⟨⟨⟨hx, le_refl _⟩, hy⟩, le_refl _⟩

/-- Witness for C3 at the notebook's Pacaya Samiria bounding box. -/
theorem bbox_filter_inclusive_witness :
    ((-77 : ℚ) ≤ -73 ∧ (-7 : ℚ) ≤ -3) ∧
    ((spatialKeep (some ⟨-77, -7, -73, -3⟩) default = true ↔
      ((-77 : ℚ) ≤ (default : DdmRecord).sp_lon ∧ (default : DdmRecord).sp_lon ≤ -73 ∧
        (-7 : ℚ) ≤ (default : DdmRecord).sp_lat ∧ (default : DdmRecord).sp_lat ≤ -3)) ∧
    spatialKeep (some ⟨-77, -7, -73, -3⟩)
      { (default : DdmRecord) with sp_lon := -77, sp_lat := -7 } = true ∧
    spatialKeep (some ⟨-77, -7, -73, -3⟩)
      { (default : DdmRecord) with sp_lon := -73, sp_lat := -3 } = true) :=
  ⟨⟨by norm_num, by norm_num⟩,
    bbox_filter_inclusive ⟨-77, -7, -73, -3⟩ default (by norm_num) (by norm_num)⟩

/-- C6: the retained record set is an order-preserving subsequence of the
file's (sample, channel) traversal, and no (sample, channel) pair appears
twice in the output. -/
theorem read_records_order_preserving (cfg : ReaderConfig) (f : InputFile) :
    (readRecords cfg f).Sublist (candidates f) ∧
    ((readRecords cfg f).map (fun r => (r.sampleIdx, r.channelIdx))).Nodup := by
  have hsub : (readRecords cfg f).Sublist (candidates f) := List.filter_sublist _
  refine ⟨hsub, ?_⟩
  have hmap : (candidates f).map (fun r => (r.sampleIdx, r.channelIdx)) =
      List.range f.numSamples ×ˢ List.range f.numChannels := by
    unfold candidates
    rw [List.map_map]
    exact List.map_id' _
  have hcand : ((candidates f).map (fun r => (r.sampleIdx, r.channelIdx))).Nodup := by
    rw [hmap]
    exact List.Nodup.product (List.nodup_range _) (List.nodup_range _)
  exact hcand.sublist (hsub.map _)

/-- A footprint ellipse: center (lon, lat), semi-axes, orientation. -/
structure FootprintEllipse where
  centerLon : ℚ
  centerLat : ℚ
  semiMajor : ℚ
  semiMinor : ℚ
  orientationDeg : ℚ
deriving Repr, DecidableEq

/-- A per-record geometry-insufficiency failure report, identifying the
record it concerns. -/
structure GeometryError where
  sampleIdx : Nat
  channelIdx : Nat
deriving Repr, DecidableEq

/-- Modelled from the spec: the minimum number of geometry points needed to
fit an oriented ellipse; the spec and the notebook state that one or two
track samples cannot yield an oriented ellipse. -/
def minGeometryPoints : Nat := 3

/-- Attribute lookup with default 0 for a record's association list. -/
def attrD (r : DdmRecord) (n : String) : ℚ :=
  (r.attributes.lookup n).getD 0

/-- Modelled from the spec: the ellipse-fitting arithmetic of reader.py is
absent from the sources; modelled as a total function of the record geometry
and the track end points, with the trigonometric parts replaced by a rational
surrogate.  No claim inspects these values; the claims concern the failure
path and the record/feature counts. -/
def fitEllipse (trackPts : List (ℚ × ℚ)) (r : DdmRecord) : FootprintEllipse :=
  let fst := trackPts.headD (r.sp_lon, r.sp_lat)
  let lst := trackPts.getLastD (r.sp_lon, r.sp_lat)
  { centerLon := r.sp_lon
    centerLat := r.sp_lat
    semiMajor := attrD r "rx_to_sp_range" + attrD r "sp_inc_angle"
    semiMinor := attrD r "rx_to_sp_range"
    orientationDeg := (lst.2 - fst.2) + (lst.1 - fst.1) }

/-- Modelled from the spec: the footprint estimator returns one ellipse, or a
per-record computation failure when fewer than the minimum number of geometry
points are available. -/
def estimateFootprint (trackPts : List (ℚ × ℚ)) (r : DdmRecord) :
    Except GeometryError FootprintEllipse :=
  if trackPts.length < minGeometryPoints then
    Except.error ⟨r.sampleIdx, r.channelIdx⟩
  else
    Except.ok (fitEllipse trackPts r)

/-- Modelled from the spec: estimating over a record list keeps the
successful ellipses, excluding failed records without aborting the rest. -/
def estimateAll (items : List (List (ℚ × ℚ) × DdmRecord)) : List FootprintEllipse :=
  items.filterMap (fun p => (estimateFootprint p.1 p.2).toOption)

/-- Modelled from the spec: the per-record failure reports collected while
estimating over a record list. -/
def estimateFailures (items : List (List (ℚ × ℚ) × DdmRecord)) : List GeometryError :=
  items.filterMap (fun p =>
    match estimateFootprint p.1 p.2 with
    | Except.error e => some e
    | Except.ok _ => none)

/-- C4: a record with fewer than the minimum geometry points yields a
per-record failure report naming the record, is excluded from the ellipse
output, and the remaining records are still processed. -/
theorem insufficient_geometry_reported (pts : List (ℚ × ℚ)) (r : DdmRecord)
    (pre post : List (List (ℚ × ℚ) × DdmRecord))
    (h : pts.length < minGeometryPoints) :
    estimateFootprint pts r = Except.error ⟨r.sampleIdx, r.channelIdx⟩ ∧
    estimateAll (pre ++ (pts, r) :: post) = estimateAll pre ++ estimateAll post ∧
    estimateFailures (pre ++ (pts, r) :: post) =
      estimateFailures pre ++ ⟨r.sampleIdx, r.channelIdx⟩ :: estimateFailures post := by
  have hest : estimateFootprint pts r = Except.error ⟨r.sampleIdx, r.channelIdx⟩ := by
    unfold estimateFootprint
    rw [if_pos h]
  refine ⟨hest, ?_, ?_⟩
  · unfold estimateAll
    rw [List.filterMap_append, List.filterMap_cons]
    rw [hest]
    rfl
  · unfold estimateFailures
    rw [List.filterMap_append, List.filterMap_cons]
    rw [hest]

/-- Witness for C4: a track truncated to two samples fails and is excluded
while the surrounding records are unaffected. -/
theorem insufficient_geometry_reported_witness :
    ([(0, 0), (1, 1)] : List (ℚ × ℚ)).length < minGeometryPoints ∧
    (estimateFootprint [(0, 0), (1, 1)] default =
        Except.error ⟨(default : DdmRecord).sampleIdx, (default : DdmRecord).channelIdx⟩ ∧
      estimateAll ([] ++ ([(0, 0), (1, 1)], default) :: []) =
        estimateAll [] ++ estimateAll [] ∧
      estimateFailures ([] ++ ([(0, 0), (1, 1)], default) :: []) =
        estimateFailures [] ++
          ⟨(default : DdmRecord).sampleIdx, (default : DdmRecord).channelIdx⟩ ::
            estimateFailures []) :=
  ⟨by decide,
    insufficient_geometry_reported [(0, 0), (1, 1)] default [] [] (by decide)⟩

/-- The fixed number of boundary vertices approximating an ellipse polygon. -/
def ellipsePolygonVertices : Nat := 32

/-- Modelled from the spec: the ellipse polygon is approximated by a fixed
number of boundary vertices; the trigonometric vertex placement of reader.py
is absent from the sources and is modelled by a rational parametrization. -/
def ellipsePolygon (e : FootprintEllipse) : List (ℚ × ℚ) :=
  (List.range ellipsePolygonVertices).map
    (fun (i : ℕ) =>
      (e.centerLon + e.semiMajor * ((ellipsePolygonVertices : ℚ) - 2 * (i : ℚ)) /
          (ellipsePolygonVertices : ℚ),
       e.centerLat + e.semiMinor * ((ellipsePolygonVertices : ℚ) - 2 * (i : ℚ)) /
          (ellipsePolygonVertices : ℚ)))

/-- One output vector-file feature: polygon geometry plus properties. -/
structure Feature where
  geometry : List (ℚ × ℚ)
  properties : List (String × ℚ)
deriving Repr, DecidableEq

/-- Modelled from the spec: `CygnssL1Reader.write_footprint_to_geojson`
serializes one polygon feature per retained (record, ellipse) pair, each
feature carrying its record's non-geometry attributes as properties. -/
def write_footprint_to_geojson (items : List (DdmRecord × FootprintEllipse)) :
    List Feature :=
  items.map (fun p => ⟨ellipsePolygon p.2, p.1.attributes⟩)

/-- C5: exporting N footprints writes exactly N polygon features whose
properties equal the originating records' non-geometry attributes, each
feature carrying the fixed number of polygon vertices. -/
theorem export_round_trip (items : List (DdmRecord × FootprintEllipse)) :
    (write_footprint_to_geojson items).length = items.length ∧
    (write_footprint_to_geojson items).map Feature.properties =
      items.map (fun p => p.1.attributes) ∧
    (write_footprint_to_geojson items).all
      (fun ft => ft.geometry.length == ellipsePolygonVertices) = true := by
  refine ⟨?_, ?_, ?_⟩
  · unfold write_footprint_to_geojson
    rw [List.length_map]
  · unfold write_footprint_to_geojson
    rw [List.map_map]
    rfl
  · unfold write_footprint_to_geojson
    rw [List.all_eq_true]
    intro ft hft
    rw [List.mem_map] at hft
    obtain ⟨p, _, hp⟩ := hft
    subst hp
    rw [beq_iff_eq]
    unfold ellipsePolygon
    rw [List.length_map, List.length_range]

/-- Insert one keyed section into a key-sorted section list. -/
def insertSection (s : Nat × List FlagEntry) :
    List (Nat × List FlagEntry) → List (Nat × List FlagEntry)
  | [] => [s]
  | t :: ts => if s.1 ≤ t.1 then s :: t :: ts else t :: insertSection s ts

/-- Sort the config sections by their numeric section keys. -/
def sortSectionsByKey (ss : List (Nat × List FlagEntry)) :
    List (Nat × List FlagEntry) :=
  ss.foldr insertSection []

/-- Modelled from the spec: the loader of the quality-flag configuration
(reader.py is absent from the sources) composes the flag bytes by
concatenating the config sections in numeric section-key order and assigns
each flag within a byte group its bit index by declaration order. -/
def loadQualityFlagSpec : List (List (Nat × FlagEntry)) :=
  (sortSectionsByKey configQualityFlagSections).map (fun s => s.2.enum)

/-- C8: in each loaded flag byte group the bit indices are contiguous from 0
in declaration order and no flag name is duplicated, and the byte groups are
the config sections "1" and "2" in numeric section-key order. -/
theorem quality_flag_spec_invariant :
    (loadQualityFlagSpec.all (fun g =>
      decide (g.map Prod.fst = List.range g.length) &&
      decide ((g.map (fun e => e.2.name)).Nodup)) = true) ∧
    loadQualityFlagSpec = [quality_flags_1.enum, quality_flags_2.enum] := by
  constructor
  · decide
  · decide

/-- Synthetic quality-flag table for the end-to-end scenario: one flag byte
with a single screen-out bit. -/
def syntheticQualityTable : List (List FlagEntry) := [[⟨"synthetic_screen", true⟩]]

/-- Synthetic record data for the end-to-end scenario: 10 samples by 4
channels.  Samples 0..4 lie inside the bounding box (half the samples);
the near-land indicator is false on 5 of those 20 records (one quarter);
the screen-out flag bit is set on 4 of the remaining 15 records (one quarter
rounded to whole records). -/
def syntheticRecordAt (s c : Nat) : DdmRecord where
  sampleIdx := s
  channelIdx := c
  sp_lat := 5
  sp_lon := if s < 5 then 5 else 20
  nearLand := !(decide (s = 0) || (decide (s = 1) && decide (c = 0)))
  qualityFlags := [if (s = 1 ∧ 1 ≤ c) ∨ (s = 2 ∧ c = 0) then 1 else 0]
  attributes := []

/-- The synthetic input file of the end-to-end scenario: it exposes the full
attribute catalog and has 10 samples and 4 channels (40 candidate records). -/
def syntheticFile : InputFile where
  fileId := "synthetic.nc"
  varNames := attributeCatalog
  numSamples := 10
  numChannels := 4
  recordAt := syntheticRecordAt

/-- The reader configuration of the end-to-end scenario: a bounding box
covering half the samples, the near-land filter enabled, and the synthetic
quality table. -/
def syntheticConfig : ReaderConfig where
  bbox := some ⟨0, 0, 10, 10⟩
  near_land := true
  tables := syntheticQualityTable

/-- The scenario's per-file read result. -/
def syntheticResult : Except MissingVariableError (List DdmRecord) :=
  read_file syntheticConfig syntheticFile

/-- The scenario's exported features: every retained record is paired with
the footprint estimated from a three-point track and exported. -/
def syntheticFeatures : List Feature :=
  match syntheticResult with
  | Except.ok rs =>
      write_footprint_to_geojson (rs.filterMap (fun r =>
        (estimateFootprint [(r.sp_lon, r.sp_lat), (r.sp_lon + 1, r.sp_lat + 1),
            (r.sp_lon + 2, r.sp_lat + 2)] r).toOption.map (fun e => (r, e))))
  | Except.error _ => []

/-- C9: on the synthetic 10-sample by 4-channel file, the reader retains 11
records, which is 40 * 0.5 * 0.75 * 0.75 rounded to whole records, and the
export contains exactly that many polygon features. -/
theorem end_to_end_scenario_counts :
    syntheticResult.toOption.map List.length = some 11 ∧
    syntheticFeatures.length = 11 ∧
    round ((40 : ℚ) * (1 / 2) * (3 / 4) * (3 / 4)) = (11 : ℤ) := by
  refine ⟨by decide, by decide, ?_⟩
  norm_num [round_eq]
